import Mathlib

/-!
Shallow embedding of the `fastapi-middlewares` middleware chain
(`src/middlewares/middlewares.py` and `src/middlewares/__init__.py`).

An ASGI application is modelled as a function from a request scope to the
observable effects of handling one request: the ordered list of messages it
sends, the log lines it emits, and the exception (if any) that escapes it.
Each middleware class's `__call__` becomes a function transforming an inner
application into a wrapped application; the `send` wrappers that the
middlewares install become pure functions on messages.  Clocks
(`time.perf_counter`) and randomness (`uuid.uuid4`) are threaded in as
explicit parameters: a timestamp is a natural number of 1e-4-second ticks,
matching the `"%.4f"` rendering granularity used by the source.
-/

namespace Middlewares

/-- A response header: name/value pair.  ASGI carries headers as byte
strings; we model them as Lean strings. -/
abbrev Header := String × String

/-- One event of the outgoing ASGI message stream: either the
`http.response.start` event (status plus header list) or a
`http.response.body` chunk. -/
inductive Message where
  | start (status : Nat) (headers : List Header) : Message
  | body (chunk : String) : Message
deriving DecidableEq

/-- Header list of a message (empty for body chunks). -/
def headersOf : Message → List Header
  | Message.start _ hs => hs
  | Message.body _ => []

/-- Is the message the start-of-response event? -/
def isStart : Message → Bool
  | Message.start _ _ => true
  | Message.body _ => false

/-- The ASGI connection scope, restricted to the keys this middleware chain
reads or writes.  `requestId` models the mutable `scope["request_id"]` key
(absent until some layer assigns it). -/
structure Scope where
  type : String
  scheme : String
  path : String
  method : String
  queryString : String
  client : String
  headers : List Header
  requestId : Option String
deriving DecidableEq

/-- A structured log record, modelling one `logging` call: the logger it was
sent to, its level, the fixed message prefix, and the fields the source
serializes into the line. -/
structure LogLine where
  logger : String
  level : String
  message : String
  requestId : String
  method : String
  path : String
  queryString : String
  client : String
  status : Option Nat
  processTime : String
deriving DecidableEq

/-- A Python exception as the chain observes it: its class name, its
`str()` message, and its optional `status_code` attribute. -/
structure PyExn where
  name : String
  message : String
  statusCode : Option Nat
deriving DecidableEq

/-- Observable effects of running one request through an (inner)
application: messages sent, log lines emitted, and the exception escaping
the call, if any (messages in `sent` were sent before the exception). -/
structure Effects where
  sent : List Message
  logs : List LogLine
  exn : Option PyExn
deriving DecidableEq

/-- An ASGI application: request scope in, observable effects out. -/
abbrev App := Scope → Effects

/-- Apply a send-wrapper to every message an application sent. -/
def Effects.mapSent (f : Message → Message) (e : Effects) : Effects :=
  ⟨e.sent.map f, e.logs, e.exn⟩

/-- A response object (as produced by `JSONResponse` or by a custom error
handler): awaiting it sends one start event and one body chunk. -/
structure Response where
  status : Nat
  headers : List Header
  body : String
deriving DecidableEq

/-- The messages sent when a `Response` object is awaited. -/
def responseMessages (r : Response) : List Message :=
  [Message.start r.status r.headers, Message.body r.body]

/-! ### String helpers

Python's `bytes.lower()` / `str.lower()` and `str.startswith` are modelled
by list-based functions (the header names involved are ASCII), written so
that the kernel can evaluate them on literals. -/

/-- ASCII lowering of a string, modelling Python's `.lower()`. -/
def lowerStr (s : String) : String := String.mk (s.data.map Char.toLower)

/-- `pre` is a prefix of `s`, on character lists. -/
def startsWithChars : List Char → List Char → Bool
  | [], _ => true
  | _ :: _, [] => false
  | a :: as, b :: bs => a == b && startsWithChars as bs

/-- Python's `s.startswith(p)`. -/
def strStartsWith (s p : String) : Bool := startsWithChars p.data s.data

/-! ### Decimal rendering (used for `%.4f` timing values, HSTS max-age) -/

/-- The decimal digit character for `n < 10`. -/
def digitChar (n : Nat) : Char := Char.ofNat (48 + n)

/-- Fuelled base-10 digit expansion (most significant first); fuel-generic
so the kernel can evaluate it on literals. -/
def digits10Aux : Nat → Nat → List Char
  | 0, _ => []
  | fuel + 1, n =>
    if n < 10 then [digitChar n]
    else digits10Aux fuel (n / 10) ++ [digitChar (n % 10)]

/-- Decimal digits of a natural number, as Python's `str`/`{}`-formatting
renders it. -/
def digits10 (n : Nat) : List Char := digits10Aux (n + 1) n

/-- Decimal string of a natural number. -/
def natToStr (n : Nat) : String := String.mk (digits10 n)

/-- Exactly-four-digit zero-padded rendering of `n % 10000`. -/
def pad4 (n : Nat) : List Char :=
  [digitChar (n / 1000 % 10), digitChar (n / 100 % 10),
   digitChar (n / 10 % 10), digitChar (n % 10)]

/-- Python's `f"{t:.4f}"` on a duration of `ticks` 1e-4-second ticks:
integer seconds, a dot, then exactly four fractional digits. -/
def formatFixed4 (ticks : Nat) : String :=
  String.mk (digits10 (ticks / 10000) ++ '.' :: pad4 (ticks % 10000))

/-! ### JSON rendering (used by the error-handling layer's `JSONResponse`) -/

/-- Escape a string for inclusion in a JSON literal (quote and backslash). -/
def jsonEscape (s : String) : String :=
  String.mk (s.data.foldr
    (fun c acc =>
      if c = '"' then '\\' :: '"' :: acc
      else if c = '\\' then '\\' :: '\\' :: acc
      else c :: acc) [])

/-- Compact `json.dumps` of a flat object with string values, in insertion
order (Python dicts preserve insertion order). -/
def jsonRenderObj (kvs : List (String × String)) : String :=
  "\x7b" ++ String.intercalate ","
    (kvs.map (fun kv => "\"" ++ jsonEscape kv.1 ++ "\":\"" ++ jsonEscape kv.2 ++ "\"")) ++ "\x7d"

/-! ### RequestIDMiddleware -/

/-- The send-wrapper `send_with_request_id`: on the start-of-response event
append the (lower-cased) correlation header; forward every other message
unchanged. -/
def sendWithRequestId (headerNameLower requestId : String) : Message → Message
  | Message.start s hs => Message.start s (hs ++ [(headerNameLower, requestId)])
  | m => m

/-- The inbound-header scan of `RequestIDMiddleware.__call__`: the first
header whose name equals the configured (lower-cased) name supplies the
identifier; a missing or empty value falls back to the fresh random token
(`str(uuid.uuid4())`, threaded in as `freshId`). -/
def RequestIDMiddleware.lookupId (headerNameLower : String) (headers : List Header)
    (freshId : String) : String :=
  match (headers.find? (fun h => h.1 == headerNameLower)).map (·.2) with
  | some v => if v = "" then freshId else v
  | none => freshId

/-- `RequestIDMiddleware.__call__`, exactly as written in the source.  Note
the guard: the source reads `if scope["type"] == "http"` and forwards, so
HTTP scopes pass through untouched and only non-HTTP scopes are decorated
(every sibling middleware uses `!=` here). -/
def RequestIDMiddleware.call (headerName freshId : String) (inner : App) (scope : Scope) :
    Effects :=
  if scope.type = "http" then inner scope
  else
    Effects.mapSent
      (sendWithRequestId (lowerStr headerName)
        (RequestIDMiddleware.lookupId (lowerStr headerName) scope.headers freshId))
      (inner { scope with
                requestId := some (RequestIDMiddleware.lookupId (lowerStr headerName)
                  scope.headers freshId) })

/-! ### RequestTimingMiddleware -/

/-- The send-wrapper `send_with_timing`: on the start-of-response event
append the timing header, its value the elapsed ticks since `startT`
rendered by `f"{...:.4f}"`; forward every other message unchanged.
`nowT` is the clock value at the start-of-response event. -/
def sendWithTiming (headerNameLower : String) (startT nowT : Nat) : Message → Message
  | Message.start s hs =>
      Message.start s (hs ++ [(headerNameLower, formatFixed4 (nowT - startT))])
  | m => m

/-- `RequestTimingMiddleware.__call__`: non-HTTP scopes pass through; for
HTTP scopes the timing send-wrapper is installed around the inner app. -/
def RequestTimingMiddleware.call (headerName : String) (startT nowT : Nat) (inner : App)
    (scope : Scope) : Effects :=
  if scope.type ≠ "http" then inner scope
  else Effects.mapSent (sendWithTiming (lowerStr headerName) startT nowT) (inner scope)

/-! ### SecurityHeadersMiddleware -/

/-- The library's default security-header mapping, in the source's
insertion order. -/
def securityDefaultHeaders : List Header :=
  [("X-Content-Type-Options", "nosniff"),
   ("X-Frame-Options", "DENY"),
   ("X-XSS-Protection", "0"),
   ("Referrer-Policy", "strict-origin-when-cross-origin"),
   ("Content-Security-Policy",
     "default-src \x27self\x27; script-src \x27self\x27 \x27unsafe-inline\x27; style-src \x27self\x27 \x27unsafe-inline\x27; img-src \x27self\x27 data: https:; font-src \x27self\x27 data:; connect-src \x27self\x27 ws: wss: https:;")]

/-- `SecurityHeadersMiddleware.__init__`'s `self.headers = headers or {...}`:
`None` — and, because an empty dict is falsy, also the empty mapping —
selects the defaults; any non-empty mapping replaces them. -/
def SecurityHeadersMiddleware.resolveHeaders : Option (List Header) → List Header
  | none => securityDefaultHeaders
  | some hs => if hs.isEmpty then securityDefaultHeaders else hs

/-- The identification-suppression filter: drop headers whose name is
exactly `server` or `x-powered-by`. -/
def SecurityHeadersMiddleware.keep (h : Header) : Bool :=
  !(h.1 == "server" || h.1 == "x-powered-by")

/-- The `Strict-Transport-Security` value for a configured max-age. -/
def SecurityHeadersMiddleware.hstsValue (maxAge : Nat) : String :=
  "max-age=" ++ natToStr maxAge ++ "; includeSubDomains"

/-- `SecurityHeadersMiddleware._is_https`: if some `x-forwarded-proto`
request header exists, the first one decides (its value, lower-cased,
compared to `https`); only otherwise does the scope's own scheme decide. -/
def SecurityHeadersMiddleware.is_https (scope : Scope) : Bool :=
  match scope.headers.find? (fun h => lowerStr h.1 == "x-forwarded-proto") with
  | some h => lowerStr h.2 == "https"
  | none => scope.scheme == "https"

/-- The send-wrapper `send_with_security_headers`: on the start-of-response
event append every configured header (name lower-cased), append HSTS when
the request is effectively HTTPS, then filter out `server`/`x-powered-by`;
forward every other message unchanged. -/
def sendWithSecurityHeaders (cfg : List Header) (maxAge : Nat) (https : Bool) :
    Message → Message
  | Message.start s hs =>
      Message.start s
        (((hs ++ cfg.map (fun h => (lowerStr h.1, h.2))) ++
            (if https then
              [("strict-transport-security", SecurityHeadersMiddleware.hstsValue maxAge)]
             else [])).filter SecurityHeadersMiddleware.keep)
  | m => m

/-- `SecurityHeadersMiddleware.__call__`: non-HTTP scopes pass through; for
HTTP scopes the security send-wrapper is installed around the inner app. -/
def SecurityHeadersMiddleware.call (cfg : Option (List Header)) (maxAge : Nat) (inner : App)
    (scope : Scope) : Effects :=
  if scope.type ≠ "http" then inner scope
  else
    Effects.mapSent
      (sendWithSecurityHeaders (SecurityHeadersMiddleware.resolveHeaders cfg) maxAge
        (SecurityHeadersMiddleware.is_https scope))
      (inner scope)

/-! ### LoggingMiddleware -/

/-- `skip_paths or ['/health', '/metrics']` (empty list is falsy). -/
def LoggingMiddleware.resolveSkipPaths : Option (List String) → List String
  | none => ["/health", "/metrics"]
  | some ps => if ps.isEmpty then ["/health", "/metrics"] else ps

/-- `any(path.startswith(p) for p in self.skip_paths)`. -/
def startsWithAny (path : String) (prefixes : List String) : Bool :=
  prefixes.any (fun p => strStartsWith path p)

/-- The "Request started" log record (always info level). -/
def LoggingMiddleware.startedLine (loggerName rid method path qs client : String) : LogLine :=
  ⟨loggerName, "info", "Request started", rid, method, path, qs, client, none, ""⟩

/-- The "Request completed" log record: warning level exactly when the
status code is outside `[200, 400)`. -/
def LoggingMiddleware.completedLine (loggerName rid : String) (st : Nat) (pt : String) :
    LogLine :=
  ⟨loggerName, if 200 ≤ st ∧ st < 400 then "info" else "warning",
   "Request completed", rid, "", "", "", "", some st, pt⟩

/-- Status captured by `send_with_logging`: each start-of-response event
overwrites it; `dflt` (500 in the source) if none is observed. -/
def lastStartStatus (msgs : List Message) (dflt : Nat) : Nat :=
  msgs.foldl (fun st m => match m with | Message.start s _ => s | Message.body _ => st) dflt

/-- `LoggingMiddleware.__call__`: non-HTTP scopes and skip-listed paths
pass through unlogged; otherwise one started line is emitted before the
inner app runs and — in a `finally` block, so also when the inner app
raises — one completed line after it, and any exception is rethrown.
`startT`/`endT` are the perf-counter readings around the inner call. -/
def LoggingMiddleware.call (loggerName : String) (skipPaths : List String) (startT endT : Nat)
    (inner : App) (scope : Scope) : Effects :=
  if scope.type ≠ "http" then inner scope
  else if startsWithAny scope.path skipPaths then inner scope
  else
    ⟨(inner scope).sent,
     LoggingMiddleware.startedLine loggerName (scope.requestId.getD "N/A") scope.method
         scope.path scope.queryString scope.client
       :: (inner scope).logs
       ++ [LoggingMiddleware.completedLine loggerName (scope.requestId.getD "N/A")
             (lastStartStatus (inner scope).sent 500) (formatFixed4 (endT - startT) ++ "s")],
     (inner scope).exn⟩

/-! ### ErrorHandlingMiddleware -/

/-- A custom error handler: called with the scope and the exception, it
returns the response to send.  The source keys the `custom_handlers` dict
by exception class; class identity is modelled by the class name. -/
abbrev Handler := Scope → PyExn → Response

/-- The error-detail body: error class name, message and correlation
identifier, plus the traceback text only when the flag is enabled. -/
def errorDetail (exc : PyExn) (rid : String) (includeTb : Bool) (tbText : String) :
    List (String × String) :=
  [("error", exc.name), ("message", exc.message), ("request_id", rid)] ++
    (if includeTb then [("traceback", tbText)] else [])

/-- The module-level `logger.error(...)` record emitted for an unmatched
exception. -/
def failureLog (rid : String) (exc : PyExn) : LogLine :=
  ⟨"middlewares.middlewares", "error",
   "Request " ++ rid ++ " failed: " ++ exc.name ++ ": " ++ exc.message,
   rid, "", "", "", "", none, ""⟩

/-- The `JSONResponse` built for an unmatched exception: status from the
error's `status_code` attribute (500 when absent), JSON body from the
error detail.  (The `content-length` header the host framework's response
class computes from the body is elided; only the content type is kept.) -/
def ErrorHandlingMiddleware.defaultResponse (includeTb : Bool) (tbText rid : String)
    (exc : PyExn) : Response :=
  ⟨exc.statusCode.getD 500, [("content-type", "application/json")],
   jsonRenderObj (errorDetail exc rid includeTb tbText)⟩

/-- `ErrorHandlingMiddleware.__call__`: non-HTTP scopes pass through; on an
exception from the inner app, a custom handler registered for the exact
exception class fully takes over (no log line, no default body); otherwise
the failure is logged once and the default JSON error response is sent.
Nothing is re-raised.  `tbText` is the `traceback.format_exc()` text. -/
def ErrorHandlingMiddleware.call (includeTb : Bool) (handlers : List (String × Handler))
    (tbText : String) (inner : App) (scope : Scope) : Effects :=
  if scope.type ≠ "http" then inner scope
  else
    match (inner scope).exn with
    | none => inner scope
    | some exc =>
      match handlers.find? (fun h => h.1 == exc.name) with
      | some h => ⟨(inner scope).sent ++ responseMessages (h.2 scope exc),
                   (inner scope).logs, none⟩
      | none =>
          ⟨(inner scope).sent ++
             responseMessages (ErrorHandlingMiddleware.defaultResponse includeTb tbText
               (scope.requestId.getD "N/A") exc),
           (inner scope).logs ++ [failureLog (scope.requestId.getD "N/A") exc],
           none⟩

/-! ### Composition helper (`__init__.py`) -/

/-- The CORS adapter delegates to Starlette's built-in `CORSMiddleware`
(external to this repository), which forwards a request carrying no
`Origin` header unchanged; modelled as the identity wrapper for such
requests. -/
def corsAdapter (inner : App) : App := inner

/-- The compression adapter delegates to Starlette's built-in
`GZipMiddleware` (external to this repository), which forwards responses
below the minimum size (default 1000 bytes) unchanged; modelled as the
identity wrapper for such responses. -/
def gzipAdapter (inner : App) : App := inner

/-- The `app.add_middleware(...)` calls made by `add_essentials`, in the
order the source makes them. -/
def add_essentials_registration_order : List String :=
  ["GZipMiddleware", "LoggingMiddleware", "RequestTimingMiddleware",
   "RequestIDMiddleware", "SecurityHeadersMiddleware", "CORSMiddleware",
   "ErrorHandlingMiddleware"]

/-- Request-time execution order: Starlette runs middlewares
last-added-first (the source's own comment: "last added = first
executed"). -/
def add_essentials_execution_order : List String :=
  add_essentials_registration_order.reverse

/-- Default `logger_name` argument of `add_essentials`. -/
def add_essentials_default_logger_name : String := "fastapi_middlewares"

/-- Default `include_traceback` argument of `add_essentials`. -/
def add_essentials_default_include_traceback : Bool := false

/-- `add_cors`'s `allow_origins or ["*"]` default. -/
def add_cors_default_allow_origins : List String := ["*"]

/-- The full stack `add_essentials` registers, applied to one request in
execution order (error handling outermost, compression innermost), with
default configuration for every layer and the clocks/uuid threaded in. -/
def essentialsApp (includeTb : Bool) (loggerName tbText freshId : String)
    (timingStart timingNow logStart logEnd : Nat) (handler : App) : App :=
  ErrorHandlingMiddleware.call includeTb [] tbText
    (corsAdapter
      (SecurityHeadersMiddleware.call none 31536000
        (RequestIDMiddleware.call "X-Request-ID" freshId
          (RequestTimingMiddleware.call "X-Process-Time" timingStart timingNow
            (LoggingMiddleware.call loggerName (LoggingMiddleware.resolveSkipPaths none)
              logStart logEnd
              (gzipAdapter handler))))))

/-! ### Concrete fixtures used by closed theorems and witnesses -/

/-- A plain successful HTTP GET scope with no special headers. -/
def plainScope : Scope := ⟨"http", "http", "/items", "GET", "", "testclient", [], none⟩

/-- An HTTP scope carrying an inbound correlation header. -/
def taggedScope : Scope :=
  ⟨"http", "http", "/test", "GET", "", "testclient",
   [("x-request-id", "custom-test-id-123")], none⟩

/-- The same request on a non-HTTP (websocket) scope. -/
def taggedWsScope : Scope :=
  ⟨"websocket", "http", "/test", "GET", "", "testclient",
   [("x-request-id", "custom-test-id-123")], none⟩

/-- An HTTPS-terminating-proxy mismatch: the connection's own scheme is
`https` but the proxy header says plain HTTP. -/
def forwardedHttpScope : Scope :=
  ⟨"http", "https", "/t", "GET", "", "testclient", [("x-forwarded-proto", "http")], none⟩

/-- An HTTP scope whose proxy header announces TLS termination. -/
def forwardedHttpsScope : Scope :=
  ⟨"http", "http", "/t", "GET", "", "testclient", [("x-forwarded-proto", "https")], none⟩

/-- An HTTP scope for a path under the default skip list. -/
def healthScope : Scope :=
  ⟨"http", "http", "/health/live", "GET", "", "testclient", [], none⟩

/-- An HTTP scope that already carries a correlation identifier in its
request context. -/
def errScope : Scope := ⟨"http", "http", "/error", "GET", "", "testclient", [], some "req-1"⟩

/-- An inner application that answers 200 with an empty header list and one
body chunk. -/
def okHandler : App := fun _ => ⟨[Message.start 200 [], Message.body "ok"], [], none⟩

/-- An inner application that reflects the correlation identifier it can
see in its scope into a response header, and raises nothing. -/
def reflectHandler : App := fun sc =>
  ⟨[Message.start 200 [("seen-request-id", sc.requestId.getD "none")]], [], none⟩

/-- An inner application that raises `ValueError("x")` before sending
anything. -/
def raiseValueError : App := fun _ => ⟨[], [], some ⟨"ValueError", "x", none⟩⟩

/-- A custom handler answering 418 with a fixed body. -/
def teapotHandler : Handler := fun _ _ => ⟨418, [("x-handled", "teapot")], "teapot"⟩

set_option maxRecDepth 10000

/-! ### Helper lemmas -/

theorem digitChar_isDigit {n : Nat} (h : n < 10) : (digitChar n).isDigit = true := by
  interval_cases n <;> decide

theorem digits10Aux_digits :
    ∀ (fuel n : Nat), n < fuel → ∀ c ∈ digits10Aux fuel n, c.isDigit = true := by
  intro fuel
  induction fuel with
  | zero => intro n h; omega
  | succ fuel ih =>
    intro n hn c hc
    by_cases h10 : n < 10
    · simp only [digits10Aux, if_pos h10, List.mem_singleton] at hc
      subst hc; exact digitChar_isDigit h10
    · simp only [digits10Aux, if_neg h10, List.mem_append, List.mem_singleton] at hc
      rcases hc with h1 | h1
      · exact ih (n / 10) (by omega) c h1
      · subst h1; exact digitChar_isDigit (Nat.mod_lt _ (by omega))

theorem digits10Aux_ne_nil :
    ∀ (fuel n : Nat), n < fuel → digits10Aux fuel n ≠ [] := by
  intro fuel n h
  cases fuel with
  | zero => omega
  | succ fuel => simp only [digits10Aux]; split <;> simp

theorem pad4_digits (n : Nat) : ∀ c ∈ pad4 n, c.isDigit = true := by
  intro c hc
  simp only [pad4, List.mem_cons, List.not_mem_nil, or_false] at hc
  rcases hc with h | h | h | h <;> (subst h; exact digitChar_isDigit (by omega))

/-- `f"{t:.4f}"` output shape: some digits, a dot, exactly four digits. -/
theorem formatFixed4_shape (t : Nat) :
    ∃ a b : List Char, formatFixed4 t = String.mk (a ++ '.' :: b) ∧ a ≠ [] ∧
      (∀ c ∈ a, c.isDigit = true) ∧ b.length = 4 ∧ (∀ c ∈ b, c.isDigit = true) :=
  ⟨digits10 (t / 10000), pad4 (t % 10000), rfl,
   digits10Aux_ne_nil _ _ (Nat.lt_succ_self _),
   digits10Aux_digits _ _ (Nat.lt_succ_self _), rfl, pad4_digits _⟩

theorem lastStartStatus_of_no_start :
    ∀ (msgs : List Message) (dflt : Nat), (∀ m ∈ msgs, isStart m = false) →
      lastStartStatus msgs dflt = dflt := by
  intro msgs
  induction msgs with
  | nil => intro dflt _; rfl
  | cons m rest ih =>
    intro dflt h
    cases m with
    | start s hs =>
      have := h _ (List.mem_cons_self _ _)
      simp [isStart] at this
    | body ch =>
      show lastStartStatus rest dflt = dflt
      exact ih dflt (fun m hm => h m (List.mem_cons_of_mem _ hm))

/-! ### Claim theorems -/

/-- Claim C1 (code bug): the spec says RequestIDMiddleware forwards
non-network-request traffic unchanged and decorates network (HTTP)
requests with the correlation identifier.  The source's guard is inverted
(`== "http"` forwards where every sibling uses `!=`): on an HTTP scope
carrying `X-Request-ID: custom-test-id-123` the middleware forwards
unchanged — no `request_id` scope key, no outbound header — while on a
websocket scope it performs the full decoration the spec describes for
HTTP. -/
theorem C1_requestid_guard_inverted :
    RequestIDMiddleware.call "X-Request-ID" "fresh-uuid" reflectHandler taggedScope
      = reflectHandler taggedScope
  ∧ RequestIDMiddleware.call "X-Request-ID" "fresh-uuid" reflectHandler taggedScope
      = ⟨[Message.start 200 [("seen-request-id", "none")]], [], none⟩
  ∧ RequestIDMiddleware.call "X-Request-ID" "fresh-uuid" reflectHandler taggedWsScope
      = ⟨[Message.start 200 [("seen-request-id", "custom-test-id-123"),
           ("x-request-id", "custom-test-id-123")]], [], none⟩
  ∧ taggedScope.type = "http" ∧ taggedWsScope.type = "websocket" :=
  ⟨rfl, by decide, by decide, rfl, rfl⟩

/-- Claim C9: RequestTimingMiddleware appends, on the start-of-response
event only, a header (configured name lower-cased, default
`X-Process-Time`) whose value renders the elapsed monotonic ticks between
the pre-handler instant and the start-of-response event with exactly four
fractional digits, and that value is a non-negative decimal (digits, dot,
four digits). -/
theorem C9_timing_header (headerName : String) (tS tN : Nat) (hmono : tS ≤ tN)
    (inner : App) (scope : Scope) (hhttp : scope.type = "http") :
    (RequestTimingMiddleware.call headerName tS tN inner scope).sent
        = (inner scope).sent.map (sendWithTiming (lowerStr headerName) tS tN)
  ∧ (RequestTimingMiddleware.call headerName tS tN inner scope).logs = (inner scope).logs
  ∧ (RequestTimingMiddleware.call headerName tS tN inner scope).exn = (inner scope).exn
  ∧ (∀ s hs, sendWithTiming (lowerStr headerName) tS tN (Message.start s hs)
       = Message.start s (hs ++ [(lowerStr headerName, formatFixed4 (tN - tS))]))
  ∧ (∃ a b : List Char, formatFixed4 (tN - tS) = String.mk (a ++ '.' :: b) ∧ a ≠ [] ∧
       (∀ c ∈ a, c.isDigit = true) ∧ b.length = 4 ∧ (∀ c ∈ b, c.isDigit = true)) := by
  refine ⟨?_, ?_, ?_, fun s hs => rfl, formatFixed4_shape _⟩ <;>
    simp [RequestTimingMiddleware.call, hhttp, Effects.mapSent]

/-- Witness for C9 at a concrete request: start at tick 3, respond at tick
10, giving `x-process-time: 0.0007`. -/
theorem C9_witness :
    (RequestTimingMiddleware.call "X-Process-Time" 3 10 okHandler plainScope).sent
      = [Message.start 200 [("x-process-time", "0.0007")], Message.body "ok"] := by
  have h := C9_timing_header "X-Process-Time" 3 10 (by decide) okHandler plainScope rfl
  rw [h.1]; decide

/-- Claim C10: the three send-wrappers forward every non-start message
unchanged; on the start-of-response event the request-id and timing
wrappers preserve all incoming headers in order and only append one new
header, and the security wrapper preserves incoming headers in order
except that a header it drops always has `server` or `x-powered-by` as its
lower-cased name. -/
theorem C10_send_wrapper_frame (hn rid : String) (tS tN : Nat) (cfg : List Header)
    (maxAge : Nat) (https : Bool) :
    (∀ ch, sendWithRequestId hn rid (Message.body ch) = Message.body ch)
  ∧ (∀ ch, sendWithTiming hn tS tN (Message.body ch) = Message.body ch)
  ∧ (∀ ch, sendWithSecurityHeaders cfg maxAge https (Message.body ch) = Message.body ch)
  ∧ (∀ s hs, sendWithRequestId hn rid (Message.start s hs)
       = Message.start s (hs ++ [(hn, rid)]))
  ∧ (∀ s hs, sendWithTiming hn tS tN (Message.start s hs)
       = Message.start s (hs ++ [(hn, formatFixed4 (tN - tS))]))
  ∧ (∀ s hs, ∃ extra,
       headersOf (sendWithSecurityHeaders cfg maxAge https (Message.start s hs))
         = hs.filter SecurityHeadersMiddleware.keep ++ extra
       ∧ ∀ h ∈ hs, h ∈ hs.filter SecurityHeadersMiddleware.keep
           ∨ lowerStr h.1 = "server" ∨ lowerStr h.1 = "x-powered-by") := by
  refine ⟨fun ch => rfl, fun ch => rfl, fun ch => rfl, fun s hs => rfl, fun s hs => rfl,
    fun s hs => ?_⟩
  refine ⟨((cfg.map (fun h => (lowerStr h.1, h.2))) ++
      (if https then
        [("strict-transport-security", SecurityHeadersMiddleware.hstsValue maxAge)]
       else [])).filter SecurityHeadersMiddleware.keep, ?_, ?_⟩
  · simp [sendWithSecurityHeaders, headersOf, List.filter_append]
  · intro h hmem
    by_cases hk : SecurityHeadersMiddleware.keep h = true
    · exact Or.inl (List.mem_filter.mpr ⟨hmem, hk⟩)
    · simp [SecurityHeadersMiddleware.keep] at hk
      by_cases hsrv : h.1 = "server"
      · exact Or.inr (Or.inl (by rw [hsrv]; decide))
      · exact Or.inr (Or.inr (by rw [hk hsrv]; decide))

/-- Witness for C10: a body chunk passes through the request-id wrapper
unchanged. -/
theorem C10_witness :
    sendWithRequestId "x-request-id" "rid-1" (Message.body "chunk") = Message.body "chunk" :=
  (C10_send_wrapper_frame "x-request-id" "rid-1" 0 1 [] 0 false).1 "chunk"

/-- Claim C5 counterexample: the claim's OR-rule predicts HSTS whenever the
scope's own scheme is `https`, but on a scope with scheme `https` and an
inbound `X-Forwarded-Proto: http` header the source lets the first
forwarded-proto header override the scheme and appends no HSTS header. -/
theorem C5_counterexample_xfp_overrides_scheme :
    forwardedHttpScope.type = "http"
  ∧ forwardedHttpScope.scheme = "https"
  ∧ (∀ m ∈ (SecurityHeadersMiddleware.call none 31536000 okHandler forwardedHttpScope).sent,
       ∀ h ∈ headersOf m, h.1 ≠ "strict-transport-security") := by decide

/-- Claim C5 (amended): the HSTS header, with value
`max-age=<configured>; includeSubDomains`, is appended to the
start-of-response headers iff `_is_https` holds — i.e. the first inbound
`x-forwarded-proto` header, when one exists, decides (its value
lower-cased equals `https`), and only in its absence does the scope's own
scheme decide — provided no layer below already produced an HSTS header
and no configured header is itself named HSTS. -/
theorem C5_amended_hsts_iff (cfg : Option (List Header)) (maxAge : Nat) (inner : App)
    (scope : Scope) (s : Nat) (hs : List Header)
    (hhttp : scope.type = "http")
    (hcfg : ∀ h ∈ SecurityHeadersMiddleware.resolveHeaders cfg,
      lowerStr h.1 ≠ "strict-transport-security")
    (hpre : ∀ h ∈ hs, h.1 ≠ "strict-transport-security") :
    (SecurityHeadersMiddleware.call cfg maxAge inner scope).sent
        = (inner scope).sent.map
            (sendWithSecurityHeaders (SecurityHeadersMiddleware.resolveHeaders cfg) maxAge
              (SecurityHeadersMiddleware.is_https scope))
  ∧ (SecurityHeadersMiddleware.is_https scope = true →
      ("strict-transport-security", SecurityHeadersMiddleware.hstsValue maxAge) ∈
        headersOf (sendWithSecurityHeaders (SecurityHeadersMiddleware.resolveHeaders cfg)
          maxAge (SecurityHeadersMiddleware.is_https scope) (Message.start s hs)))
  ∧ (∀ v, ("strict-transport-security", v) ∈
        headersOf (sendWithSecurityHeaders (SecurityHeadersMiddleware.resolveHeaders cfg)
          maxAge (SecurityHeadersMiddleware.is_https scope) (Message.start s hs)) →
      SecurityHeadersMiddleware.is_https scope = true
        ∧ v = SecurityHeadersMiddleware.hstsValue maxAge) := by
  refine ⟨by simp [SecurityHeadersMiddleware.call, hhttp, Effects.mapSent], ?_, ?_⟩
  · intro hH
    rw [hH]
    simp only [sendWithSecurityHeaders, headersOf, if_pos rfl]
    refine List.mem_filter.mpr ⟨?_, by simp [SecurityHeadersMiddleware.keep]⟩
    simp
  · intro v hv
    simp only [sendWithSecurityHeaders, headersOf] at hv
    have hv' := (List.mem_filter.mp hv).1
    rcases List.mem_append.mp hv' with hv2 | hv2
    · rcases List.mem_append.mp hv2 with hv3 | hv3
      · exact absurd rfl (hpre _ hv3)
      · rcases List.mem_map.mp hv3 with ⟨q, hq, hq2⟩
        exact absurd (congrArg Prod.fst hq2) (hcfg q hq)
    · cases hH : SecurityHeadersMiddleware.is_https scope with
      | true =>
        rw [hH] at hv2
        simp at hv2
        exact ⟨rfl, hv2⟩
      | false =>
        rw [hH] at hv2
        simp at hv2

/-- Witness for C5 at a concrete request: `X-Forwarded-Proto: https` on a
plain-scheme scope makes the middleware append the HSTS header. -/
theorem C5_witness :
    ("strict-transport-security", SecurityHeadersMiddleware.hstsValue 31536000) ∈
      headersOf (sendWithSecurityHeaders
        (SecurityHeadersMiddleware.resolveHeaders none) 31536000
        (SecurityHeadersMiddleware.is_https forwardedHttpsScope) (Message.start 200 [])) :=
  (C5_amended_hsts_iff none 31536000 okHandler forwardedHttpsScope 200 [] rfl (by decide)
    (by decide)).2.1 (by decide)

/-- Claim C6: on the start-of-response event every configured header is
appended with its name lower-cased and its configured value (those not
themselves named `server`/`x-powered-by`, which the final filter would
drop again), and no header named `server` or `x-powered-by` remains in the
final list, whichever layer produced it. -/
theorem C6_security_headers_appended_and_filtered (cfg : Option (List Header)) (maxAge : Nat)
    (inner : App) (scope : Scope) (hhttp : scope.type = "http") :
    (SecurityHeadersMiddleware.call cfg maxAge inner scope).sent
        = (inner scope).sent.map
            (sendWithSecurityHeaders (SecurityHeadersMiddleware.resolveHeaders cfg) maxAge
              (SecurityHeadersMiddleware.is_https scope))
  ∧ (∀ s hs h, h ∈ SecurityHeadersMiddleware.resolveHeaders cfg →
       lowerStr h.1 ≠ "server" → lowerStr h.1 ≠ "x-powered-by" →
       (lowerStr h.1, h.2) ∈ headersOf (sendWithSecurityHeaders
         (SecurityHeadersMiddleware.resolveHeaders cfg) maxAge
         (SecurityHeadersMiddleware.is_https scope) (Message.start s hs)))
  ∧ (∀ (cfg2 : List Header) (https : Bool) (s : Nat) (hs : List Header) (h : Header),
       h ∈ headersOf (sendWithSecurityHeaders cfg2 maxAge https (Message.start s hs)) →
       h.1 ≠ "server" ∧ h.1 ≠ "x-powered-by") := by
  refine ⟨by simp [SecurityHeadersMiddleware.call, hhttp, Effects.mapSent], ?_, ?_⟩
  · intro s hs h hmem hn1 hn2
    simp only [sendWithSecurityHeaders, headersOf]
    refine List.mem_filter.mpr ⟨?_, ?_⟩
    · exact List.mem_append_left _ (List.mem_append_right _ (List.mem_map.mpr ⟨h, hmem, rfl⟩))
    · simp [SecurityHeadersMiddleware.keep, hn1, hn2]
  · intro cfg2 https s hs h hmem
    simp only [sendWithSecurityHeaders, headersOf] at hmem
    have hk := (List.mem_filter.mp hmem).2
    simpa [SecurityHeadersMiddleware.keep, not_or] using hk

/-- Witness for C6 at a concrete request: the default `X-Frame-Options`
header appears lower-cased in the response. -/
theorem C6_witness :
    ("x-frame-options", "DENY") ∈ headersOf (sendWithSecurityHeaders
      (SecurityHeadersMiddleware.resolveHeaders none) 31536000
      (SecurityHeadersMiddleware.is_https plainScope) (Message.start 200 [])) :=
  (C6_security_headers_appended_and_filtered none 31536000 okHandler plainScope rfl).2.1
    200 [] ("X-Frame-Options", "DENY") (by decide) (by decide) (by decide)

/-- Claim C7 counterexample: supplying the empty mapping does not yield an
empty appended set — `headers or {...}` treats the empty dict as falsy, so
the library defaults are used and `x-content-type-options: nosniff`
appears in the response. -/
theorem C7_counterexample_empty_mapping :
    SecurityHeadersMiddleware.resolveHeaders (some []) = securityDefaultHeaders
  ∧ securityDefaultHeaders ≠ []
  ∧ (∃ m ∈ (SecurityHeadersMiddleware.call (some []) 31536000 okHandler plainScope).sent,
       ("x-content-type-options", "nosniff") ∈ headersOf m) := by decide

/-- Claim C7 (amended): for every NON-empty mapping supplied explicitly at
construction, the middleware appends exactly the supplied mapping
(lower-cased names) — none of the library defaults appear unless already
present or supplied; the empty mapping (like `None`) falls back to the
defaults. -/
theorem C7_amended_nonempty_replaces (cfg : List Header) (hne : cfg ≠ []) (maxAge : Nat)
    (inner : App) (scope : Scope) (hhttp : scope.type = "http")
    (hplain : SecurityHeadersMiddleware.is_https scope = false) :
    SecurityHeadersMiddleware.resolveHeaders (some cfg) = cfg
  ∧ (SecurityHeadersMiddleware.call (some cfg) maxAge inner scope).sent
      = (inner scope).sent.map (sendWithSecurityHeaders cfg maxAge false)
  ∧ (∀ s hs h, h ∈ headersOf (sendWithSecurityHeaders cfg maxAge false (Message.start s hs)) →
       h ∈ hs ∨ ∃ q ∈ cfg, h = (lowerStr q.1, q.2))
  ∧ (∀ s hs q, q ∈ cfg → lowerStr q.1 ≠ "server" → lowerStr q.1 ≠ "x-powered-by" →
       (lowerStr q.1, q.2) ∈ headersOf (sendWithSecurityHeaders cfg maxAge false
         (Message.start s hs))) := by
  have hres : SecurityHeadersMiddleware.resolveHeaders (some cfg) = cfg := by
    cases cfg with
    | nil => exact absurd rfl hne
    | cons q rest => simp [SecurityHeadersMiddleware.resolveHeaders]
  refine ⟨hres, by simp [SecurityHeadersMiddleware.call, hhttp, hplain, hres,
    Effects.mapSent], ?_, ?_⟩
  · intro s hs h hmem
    simp only [sendWithSecurityHeaders, headersOf, if_neg (Bool.false_ne_true)] at hmem
    have hv := (List.mem_filter.mp hmem).1
    rcases List.mem_append.mp hv with hv2 | hv2
    · rcases List.mem_append.mp hv2 with hv3 | hv3
      · exact Or.inl hv3
      · rcases List.mem_map.mp hv3 with ⟨q, hq, hq2⟩
        exact Or.inr ⟨q, hq, hq2.symm⟩
    · simp at hv2
  · intro s hs q hmem hn1 hn2
    simp only [sendWithSecurityHeaders, headersOf]
    refine List.mem_filter.mpr ⟨?_, ?_⟩
    · exact List.mem_append_left _ (List.mem_append_right _ (List.mem_map.mpr ⟨q, hmem, rfl⟩))
    · simp [SecurityHeadersMiddleware.keep, hn1, hn2]

/-- Witness for C7 at a concrete custom mapping: only the supplied header
(lower-cased) is appended. -/
theorem C7_witness :
    ("x-custom-header", "custom-value") ∈ headersOf (sendWithSecurityHeaders
      [("X-Custom-Header", "custom-value")] 31536000 false (Message.start 200 [])) :=
  (C7_amended_nonempty_replaces [("X-Custom-Header", "custom-value")] (by decide) 31536000
    okHandler plainScope rfl (by decide)).2.2.2 200 []
    ("X-Custom-Header", "custom-value") (by decide) (by decide) (by decide)

/-- Claim C8: LoggingMiddleware emits nothing for a path starting with a
configured skip prefix; otherwise it emits exactly one started line and —
on every exit path, the inner exception being rethrown — exactly one
completed line whose status defaults to 500 when no start-of-response
event was observed and whose level is warning iff the status is outside
`[200, 400)`. -/
theorem C8_logging_lines (loggerName : String) (skipPaths : List String) (tS tE : Nat)
    (inner : App) (scope : Scope) (hhttp : scope.type = "http") :
    (startsWithAny scope.path skipPaths = true →
      LoggingMiddleware.call loggerName skipPaths tS tE inner scope = inner scope)
  ∧ (startsWithAny scope.path skipPaths = false →
      (LoggingMiddleware.call loggerName skipPaths tS tE inner scope).sent
          = (inner scope).sent
    ∧ (LoggingMiddleware.call loggerName skipPaths tS tE inner scope).exn
          = (inner scope).exn
    ∧ (LoggingMiddleware.call loggerName skipPaths tS tE inner scope).logs
          = LoggingMiddleware.startedLine loggerName (scope.requestId.getD "N/A")
              scope.method scope.path scope.queryString scope.client
            :: (inner scope).logs
            ++ [LoggingMiddleware.completedLine loggerName (scope.requestId.getD "N/A")
                  (lastStartStatus (inner scope).sent 500) (formatFixed4 (tE - tS) ++ "s")])
  ∧ (∀ st pt, (LoggingMiddleware.completedLine loggerName (scope.requestId.getD "N/A")
        st pt).level = "warning" ↔ ¬(200 ≤ st ∧ st < 400))
  ∧ ((∀ m ∈ (inner scope).sent, isStart m = false) →
      lastStartStatus (inner scope).sent 500 = 500) := by
  refine ⟨?_, ?_, ?_, lastStartStatus_of_no_start _ _⟩
  · intro hskip
    simp [LoggingMiddleware.call, hhttp, hskip]
  · intro hskip
    refine ⟨?_, ?_, ?_⟩ <;> simp [LoggingMiddleware.call, hhttp, hskip]
  · intro st pt
    by_cases hc : 200 ≤ st ∧ st < 400 <;> simp [LoggingMiddleware.completedLine, hc]

/-- Witness for C8 at two concrete requests: a `/health/...` path produces
the inner effects unchanged (zero log lines), and the completed line for a
500 status is at warning level. -/
theorem C8_witness :
    LoggingMiddleware.call "fastapi_middlewares" ["/health", "/metrics"] 1 12 okHandler
        healthScope = okHandler healthScope
  ∧ ((LoggingMiddleware.completedLine "fastapi_middlewares"
        (healthScope.requestId.getD "N/A") 500 "0.0011s").level = "warning" ↔
      ¬(200 ≤ 500 ∧ 500 < 400)) :=
  ⟨(C8_logging_lines "fastapi_middlewares" ["/health", "/metrics"] 1 12 okHandler
      healthScope rfl).1 (by decide),
   (C8_logging_lines "fastapi_middlewares" ["/health", "/metrics"] 1 12 okHandler
      healthScope rfl).2.2.1 500 "0.0011s"⟩

/-- Claim C3: for an HTTP request whose inner handler raises an exception
with no matching custom handler, ErrorHandlingMiddleware sends a JSON
response whose body fields are the error class name, the message and the
correlation identifier (`N/A` when the request context has none), with a
traceback field iff the flag is enabled; the status is the error's
`status_code` attribute when present, 500 otherwise; the error is logged
exactly once and nothing is re-raised. -/
theorem C3_default_error_response (includeTb : Bool) (handlers : List (String × Handler))
    (tbText : String) (inner : App) (scope : Scope) (exc : PyExn)
    (hhttp : scope.type = "http")
    (hexn : (inner scope).exn = some exc)
    (hmatch : handlers.find? (fun h => h.1 == exc.name) = none) :
    (ErrorHandlingMiddleware.call includeTb handlers tbText inner scope).sent
        = (inner scope).sent ++
          [Message.start (exc.statusCode.getD 500) [("content-type", "application/json")],
           Message.body (jsonRenderObj
             (errorDetail exc (scope.requestId.getD "N/A") includeTb tbText))]
  ∧ (ErrorHandlingMiddleware.call includeTb handlers tbText inner scope).exn = none
  ∧ (ErrorHandlingMiddleware.call includeTb handlers tbText inner scope).logs
        = (inner scope).logs ++ [failureLog (scope.requestId.getD "N/A") exc]
  ∧ ("error", exc.name) ∈ errorDetail exc (scope.requestId.getD "N/A") includeTb tbText
  ∧ ("message", exc.message) ∈ errorDetail exc (scope.requestId.getD "N/A") includeTb tbText
  ∧ ("request_id", scope.requestId.getD "N/A") ∈
      errorDetail exc (scope.requestId.getD "N/A") includeTb tbText
  ∧ ((∃ t, ("traceback", t) ∈ errorDetail exc (scope.requestId.getD "N/A") includeTb tbText)
        ↔ includeTb = true)
  ∧ (scope.requestId = none → scope.requestId.getD "N/A" = "N/A")
  ∧ (∀ c, exc.statusCode = some c → exc.statusCode.getD 500 = c)
  ∧ (exc.statusCode = none → exc.statusCode.getD 500 = 500) := by
  have hcall : ErrorHandlingMiddleware.call includeTb handlers tbText inner scope
      = ⟨(inner scope).sent ++
          responseMessages (ErrorHandlingMiddleware.defaultResponse includeTb tbText
            (scope.requestId.getD "N/A") exc),
         (inner scope).logs ++ [failureLog (scope.requestId.getD "N/A") exc], none⟩ := by
    simp only [ErrorHandlingMiddleware.call, hhttp]
    rw [if_neg (by simp)]
    simp only [hexn, hmatch]
  refine ⟨?_, ?_, ?_, ?_, ?_, ?_, ?_, ?_, ?_, ?_⟩
  · rw [hcall]; rfl
  · rw [hcall]
  · rw [hcall]
  · simp [errorDetail]
  · simp [errorDetail]
  · simp [errorDetail]
  · cases includeTb <;> simp [errorDetail]
  · intro h; rw [h]; rfl
  · intro c h; rw [h]; rfl
  · intro h; rw [h]; rfl

/-- Witness for C3 at a concrete request: an unmatched `ValueError("x")`
yields the 500 JSON body with error, message and request_id fields. -/
theorem C3_witness :
    (ErrorHandlingMiddleware.call false [] "tb" raiseValueError errScope).sent
      = [Message.start 500 [("content-type", "application/json")],
         Message.body
           "\x7b\"error\":\"ValueError\",\"message\":\"x\",\"request_id\":\"req-1\"\x7d"] := by
  have h := C3_default_error_response false [] "tb" raiseValueError errScope
    ⟨"ValueError", "x", none⟩ rfl rfl rfl
  rw [h.1]; decide

/-- Claim C4 counterexample: with a custom handler registered for
`ValueError`, an inner `ValueError` produces the handler's response but
ZERO ErrorHandlingMiddleware log lines — errors taken by a custom handler
are not logged, contradicting "every error ... is logged server-side
exactly once". -/
theorem C4_counterexample_custom_handler_unlogged :
    (ErrorHandlingMiddleware.call false [("ValueError", teapotHandler)] "tb"
        raiseValueError errScope).logs = []
  ∧ (ErrorHandlingMiddleware.call false [("ValueError", teapotHandler)] "tb"
        raiseValueError errScope).sent
      = [Message.start 418 [("x-handled", "teapot")], Message.body "teapot"] :=
  ⟨rfl, rfl⟩

/-- Claim C4 (amended): a custom handler registered for the exact error
class fully replaces default formatting — status, headers and body come
from its response, nothing is re-raised and no default body is sent — but
such errors are NOT logged by ErrorHandlingMiddleware; only an error with
no matching handler is logged, exactly once. -/
theorem C4_amended_custom_handler (includeTb : Bool) (handlers : List (String × Handler))
    (tbText : String) (inner : App) (scope : Scope) (exc : PyExn)
    (hhttp : scope.type = "http") (hexn : (inner scope).exn = some exc) :
    (∀ hd, handlers.find? (fun h => h.1 == exc.name) = some hd →
        (ErrorHandlingMiddleware.call includeTb handlers tbText inner scope).sent
            = (inner scope).sent ++
              [Message.start (hd.2 scope exc).status (hd.2 scope exc).headers,
               Message.body (hd.2 scope exc).body]
      ∧ (ErrorHandlingMiddleware.call includeTb handlers tbText inner scope).logs
            = (inner scope).logs
      ∧ (ErrorHandlingMiddleware.call includeTb handlers tbText inner scope).exn = none)
  ∧ (handlers.find? (fun h => h.1 == exc.name) = none →
      (ErrorHandlingMiddleware.call includeTb handlers tbText inner scope).logs
          = (inner scope).logs ++ [failureLog (scope.requestId.getD "N/A") exc]) := by
  constructor
  · intro hd hfind
    have hcall : ErrorHandlingMiddleware.call includeTb handlers tbText inner scope
        = ⟨(inner scope).sent ++ responseMessages (hd.2 scope exc),
           (inner scope).logs, none⟩ := by
      simp only [ErrorHandlingMiddleware.call, hhttp]
      rw [if_neg (by simp)]
      simp only [hexn, hfind]
    rw [hcall]
    exact ⟨rfl, rfl, rfl⟩
  · intro hfind
    simp only [ErrorHandlingMiddleware.call, hhttp]
    rw [if_neg (by simp)]
    simp only [hexn, hfind]

/-- Witness for C4 at a concrete request: the teapot handler's response is
sent and nothing escapes. -/
theorem C4_witness :
    (ErrorHandlingMiddleware.call false [("ValueError", teapotHandler)] "tb"
        raiseValueError errScope).exn = none :=
  ((C4_amended_custom_handler false [("ValueError", teapotHandler)] "tb" raiseValueError
      errScope ⟨"ValueError", "x", none⟩ rfl rfl).1 ("ValueError", teapotHandler) rfl).2.2

/-- Claim C2 counterexample: the default logger name of `add_essentials`
is `fastapi_middlewares`, not `essentials-logger`; and a successful
request through the full default composition carries no correlation
header (RequestIDMiddleware's inverted guard forwards HTTP requests
undecorated). -/
theorem C2_counterexample_defaults :
    add_essentials_default_logger_name ≠ "essentials-logger"
  ∧ (∀ m ∈ (essentialsApp false add_essentials_default_logger_name "tb" "fresh-id"
        3 10 1 12 okHandler plainScope).sent,
       ∀ h ∈ headersOf m, h.1 ≠ "x-request-id") := by decide

/-- Claim C2 (amended): `add_essentials` registers the seven
middlewares/adapters so the request-time execution order is
error-handling, CORS, security-headers, request-id, timing, logging,
compression, then the handler, with defaults cors_origins `*`,
include_traceback false and logger_name `fastapi_middlewares`; one
successful request through the full default composition carries the
timing header and the default security headers and emits one started and
one completed (info) log line — but no correlation header, because of the
inverted guard in RequestIDMiddleware. -/
theorem C2_amended_essentials :
    add_essentials_execution_order
      = ["ErrorHandlingMiddleware", "CORSMiddleware", "SecurityHeadersMiddleware",
         "RequestIDMiddleware", "RequestTimingMiddleware", "LoggingMiddleware",
         "GZipMiddleware"]
  ∧ add_cors_default_allow_origins = ["*"]
  ∧ add_essentials_default_include_traceback = false
  ∧ add_essentials_default_logger_name = "fastapi_middlewares"
  ∧ (essentialsApp false add_essentials_default_logger_name "tb" "fresh-id" 3 10 1 12
        okHandler plainScope)
      = ⟨[Message.start 200
            [("x-process-time", "0.0007"),
             ("x-content-type-options", "nosniff"),
             ("x-frame-options", "DENY"),
             ("x-xss-protection", "0"),
             ("referrer-policy", "strict-origin-when-cross-origin"),
             ("content-security-policy",
              "default-src \x27self\x27; script-src \x27self\x27 \x27unsafe-inline\x27; style-src \x27self\x27 \x27unsafe-inline\x27; img-src \x27self\x27 data: https:; font-src \x27self\x27 data:; connect-src \x27self\x27 ws: wss: https:;")],
           Message.body "ok"],
         [LoggingMiddleware.startedLine "fastapi_middlewares" "N/A" "GET" "/items" ""
            "testclient",
          LoggingMiddleware.completedLine "fastapi_middlewares" "N/A" 200 "0.0011s"],
         none⟩
  ∧ (LoggingMiddleware.completedLine "fastapi_middlewares" "N/A" 200 "0.0011s").level
      = "info" := by decide

end Middlewares
